import Mathlib

/-!
Shallow embedding of the `basic_stopwatch` / `TimerBaseChrono` timer
(`src/stopwatch.h`) together with its two clock-policy instantiations
(`src/stopwatchmsec.h`, `src/stopwatchmicro.h`).

Modelling conventions:
* A `char const*` argument (activity label, event name) is an `Option String`
  (`none` models a null pointer).
* A `std::chrono` time point is an `Int`, counting the clock's base ticks
  (nanoseconds on the target platform); `time_point::min()` is the constant
  `tpMin`.
* `unsigned long` (= `tick_t`) is 64 bits on the target platform; the C cast
  from the signed duration count to `unsigned long` is reduction modulo
  `2 ^ 64`.
* `duration_cast` to the policy's resolution is C++ integer division,
  i.e. truncation toward zero (`Int.tdiv`), by the policy's length in base
  ticks (`res`).
* Each call to `clock_::now()` is a separate `Int` parameter of the
  operation that performs it, so one C++ call that reads the clock twice
  takes two such parameters.
* The output sink is modelled by returning the list of lines written.
-/

namespace StopwatchRepo

/-- Bit width of `unsigned long` (`tick_t`) on the target platform. -/
def ulongBits : Nat := 64

/-- `clock_::time_point::min()`: the sentinel stored in `m_start` to mean
"cleared"; the minimum of a signed 64-bit tick count. -/
def tpMin : Int := -(2 ^ 63)

/-- `TimerBaseChrono<clock_, resolution>`: the single data member
`m_start` (a time point; `tpMin` means the timer is cleared). -/
structure TimerBaseChrono where
  m_start : Int
deriving Repr, DecidableEq

namespace TimerBaseChrono

/-- Default constructor: `m_start(clock_::time_point::min())`. -/
def init : TimerBaseChrono := ⟨tpMin⟩

/-- `Clear()`: `m_start = clock_::time_point::min()`. -/
def Clear (_t : TimerBaseChrono) : TimerBaseChrono := ⟨tpMin⟩

/-- `IsStarted()`: `m_start != clock_::time_point::min()`. -/
def IsStarted (t : TimerBaseChrono) : Bool := t.m_start != tpMin

/-- `Start()`: `m_start = clock_::now()`; `now` is the value that call
to `clock_::now()` returns. -/
def Start (now : Int) (_t : TimerBaseChrono) : TimerBaseChrono := ⟨now⟩

/-- `GetMs()`: if started, `(unsigned long)(duration_cast<resolution>(clock_::now() - m_start).count())`,
else `0`. `res` is the policy resolution in base ticks, `now` the value this
call's `clock_::now()` returns. The method writes no member, so the timer is
returned unchanged. -/
def GetMs (res now : Int) (t : TimerBaseChrono) : Nat × TimerBaseChrono :=
  if t.IsStarted then
    (((Int.tdiv (now - t.m_start) res) % (2 ^ ulongBits : Int)).toNat, t)
  else
    (0, t)

end TimerBaseChrono

/-- Resolution of `std::chrono::milliseconds` in base (nanosecond) ticks,
as used by the `Stopwatch` typedef in `src/stopwatchmsec.h`. -/
def msecRes : Int := 1000000

/-- Resolution of `std::chrono::microseconds` in base (nanosecond) ticks,
as used by the `Stopwatchmicro` typedef in `src/stopwatchmicro.h`. -/
def microRes : Int := 1000

/-- `basic_stopwatch<T>`: the activity label (`none` models a null
`m_activity` pointer), the lap value, and the inherited timer. The
`std::ostream& m_log` member is modelled by the output lists the
operations return. -/
structure Stopwatch where
  m_activity : Option String
  m_lap : Nat
  timer : TimerBaseChrono
deriving Repr, DecidableEq

namespace Stopwatch

/-- `event_name && event_name[0]`: the guard the source applies to a
`char const*` event argument. -/
def nonEmptyCstr : Option String → Bool
  | none => false
  | some s => !s.isEmpty

/-- `IsStarted()`: delegates to `BaseTimer::IsStarted()`. -/
def IsStarted (sw : Stopwatch) : Bool := sw.timer.IsStarted

/-- `LapGet()`: returns `m_lap`. -/
def LapGet (sw : Stopwatch) : Nat := sw.m_lap

/-- `Show(event_name)`: if started, set `m_lap` from `GetMs()` and print
`"<activity>: <event> at <lap>mS"` when both the event argument and
`m_activity` are non-null and non-empty; otherwise print
`"<activity>: not started"` when `m_activity` is non-null. Returns
`(return value, new state, lines written)`. -/
def Show (e : Option String) (res now : Int) (sw : Stopwatch) :
    Nat × Stopwatch × List String :=
  if sw.IsStarted then
    let p := sw.timer.GetMs res now
    let out : List String :=
      if nonEmptyCstr e then
        match sw.m_activity, e with
        | some a, some ev => [a ++ ": " ++ ev ++ " at " ++ toString p.1 ++ "mS"]
        | _, _ => []
      else []
    (p.1, { sw with m_lap := p.1, timer := p.2 }, out)
  else
    let out : List String :=
      match sw.m_activity with
      | some a => [a ++ ": not started"]
      | none => []
    (sw.m_lap, sw, out)

/-- `Stop(event_name)`: if started, set `m_lap` from `GetMs()` and print
`"<activity>: <event> <lap>mS"` when both the event argument and
`m_activity` are non-null and non-empty; then unconditionally
`BaseTimer::Clear()`; return `m_lap`. -/
def Stop (e : Option String) (res now : Int) (sw : Stopwatch) :
    Nat × Stopwatch × List String :=
  if sw.IsStarted then
    let p := sw.timer.GetMs res now
    let out : List String :=
      if nonEmptyCstr e then
        match sw.m_activity, e with
        | some a, some ev => [a ++ ": " ++ ev ++ " " ++ toString p.1 ++ "mS"]
        | _, _ => []
      else []
    (p.1, { sw with m_lap := p.1, timer := p.2.Clear }, out)
  else
    (sw.m_lap, { sw with timer := sw.timer.Clear }, [])

/-- `Start(event_name)`: if started, run `Stop(event_name)`; else print
`"<activity>: <event>"` when both the event argument and `m_activity` are
non-null and non-empty. Then unconditionally `BaseTimer::Start()` and
return `m_lap`. `now1` is the reading of the `clock_::now()` inside
`GetMs` (used only in the started branch); `now2` the reading inside the
final `BaseTimer::Start()`. -/
def Start (e : Option String) (res now1 now2 : Int) (sw : Stopwatch) :
    Nat × Stopwatch × List String :=
  if sw.IsStarted then
    let r := sw.Stop e res now1
    (r.2.1.m_lap, { r.2.1 with timer := r.2.1.timer.Start now2 }, r.2.2)
  else
    let out : List String :=
      if nonEmptyCstr e then
        match sw.m_activity, e with
        | some a, some ev => [a ++ ": " ++ ev]
        | _, _ => []
      else []
    (sw.m_lap, { sw with timer := sw.timer.Start now2 }, out)

/-- The label normalization performed by the `char const* activity`
constructors: `activity && activity[0] ? activity : nullptr`. -/
def normalize : Option String → Option String
  | none => none
  | some a => if a.isEmpty then none else some a

/-- `basic_stopwatch(bool start_now)`: label `"Stopwatch"`, lap `0`,
cleared timer; performs `Start()` (default event `"start"`) if
`start_now`. Returns the constructed state and the lines written. -/
def mkBool (start_now : Bool) (res now : Int) : Stopwatch × List String :=
  let sw : Stopwatch := ⟨some "Stopwatch", 0, TimerBaseChrono.init⟩
  if start_now then
    let r := sw.Start (some "start") res now now
    (r.2.1, r.2.2)
  else
    (sw, [])

/-- `basic_stopwatch(char const* activity, bool start_now)` (and the
`ostream` overload, whose sink is modelled by the returned lines):
normalizes the label, then, if `start_now`, performs `Start()` when the
label survived normalization and `Start(nullptr)` otherwise. -/
def mkAct (activity : Option String) (start_now : Bool) (res now : Int) :
    Stopwatch × List String :=
  let sw : Stopwatch := ⟨normalize activity, 0, TimerBaseChrono.init⟩
  if start_now then
    let r := if sw.m_activity.isSome then sw.Start (some "start") res now now
             else sw.Start none res now now
    (r.2.1, r.2.2)
  else
    (sw, [])

/-- `~basic_stopwatch()`: if started, `Stop()` (default event `"stop"`)
when `m_activity` is non-null, else `Stop(nullptr)`. Returns the lines
written during destruction. -/
def destruct (res now : Int) (sw : Stopwatch) : List String :=
  if sw.IsStarted then
    if sw.m_activity.isSome then (sw.Stop (some "stop") res now).2.2
    else (sw.Stop none res now).2.2
  else []

end Stopwatch

/-- One call made by client code to a live stopwatch. Each `Int` is the
value one `clock_::now()` call inside the operation returns. -/
inductive Op where
  | show (e : Option String) (now : Int)
  | start (e : Option String) (now1 now2 : Int)
  | stop (e : Option String) (now : Int)
deriving Repr, DecidableEq

/-- Execute one operation, returning the new state and the lines written. -/
def runOp (res : Int) (sw : Stopwatch) : Op → Stopwatch × List String
  | .show e now => let r := sw.Show e res now; (r.2.1, r.2.2)
  | .start e n1 n2 => let r := sw.Start e res n1 n2; (r.2.1, r.2.2)
  | .stop e now => let r := sw.Stop e res now; (r.2.1, r.2.2)

/-- Execute a sequence of operations, accumulating all lines written. -/
def run (res : Int) (sw : Stopwatch) : List Op → Stopwatch × List String
  | [] => (sw, [])
  | op :: ops =>
      let r := runOp res sw op
      let rest := run res r.1 ops
      (rest.1, r.2 ++ rest.2)

/-! ## Helper lemmas -/

theorem GetMs_snd (t : TimerBaseChrono) (res now : Int) :
    (t.GetMs res now).2 = t := by
  unfold TimerBaseChrono.GetMs
  split <;> rfl

theorem not_started_m_start (t : TimerBaseChrono) (h : t.IsStarted = false) :
    t.m_start = tpMin := by
  simpa [TimerBaseChrono.IsStarted, bne_iff_ne] using h

theorem Clear_of_not_started (t : TimerBaseChrono) (h : t.IsStarted = false) :
    t.Clear = t := by
  cases t
  simp only [TimerBaseChrono.Clear, TimerBaseChrono.mk.injEq]
  exact (not_started_m_start _ h).symm

theorem Stop_not_started (sw : Stopwatch) (e : Option String) (res now : Int) :
    (sw.Stop e res now).2.1.IsStarted = false := by
  unfold Stopwatch.Stop
  split <;>
    simp [Stopwatch.IsStarted, TimerBaseChrono.Clear, TimerBaseChrono.IsStarted]

theorem Show_val_eq (sw : Stopwatch) (e e' : Option String) (res now : Int) :
    (sw.Show e res now).1 = (sw.Show e' res now).1 := by
  unfold Stopwatch.Show
  split <;> rfl

theorem Show_state_eq (sw : Stopwatch) (e e' : Option String) (res now : Int) :
    (sw.Show e res now).2.1 = (sw.Show e' res now).2.1 := by
  unfold Stopwatch.Show
  split <;> rfl

theorem Stop_val_eq (sw : Stopwatch) (e e' : Option String) (res now : Int) :
    (sw.Stop e res now).1 = (sw.Stop e' res now).1 := by
  unfold Stopwatch.Stop
  split <;> rfl

theorem Stop_state_eq (sw : Stopwatch) (e e' : Option String) (res now : Int) :
    (sw.Stop e res now).2.1 = (sw.Stop e' res now).2.1 := by
  unfold Stopwatch.Stop
  split <;> rfl

theorem Start_val_eq (sw : Stopwatch) (e e' : Option String) (res n1 n2 : Int) :
    (sw.Start e res n1 n2).1 = (sw.Start e' res n1 n2).1 := by
  unfold Stopwatch.Start
  split
  · dsimp only
    rw [Stop_state_eq sw e e' res n1]
  · rfl

theorem Start_state_eq (sw : Stopwatch) (e e' : Option String) (res n1 n2 : Int) :
    (sw.Start e res n1 n2).2.1 = (sw.Start e' res n1 n2).2.1 := by
  unfold Stopwatch.Start
  split
  · dsimp only
    rw [Stop_state_eq sw e e' res n1]
  · rfl

theorem Show_out_empty (sw : Stopwatch) (e : Option String) (res now : Int)
    (hs : sw.IsStarted = true) (he : Stopwatch.nonEmptyCstr e = false) :
    (sw.Show e res now).2.2 = [] := by
  unfold Stopwatch.Show
  simp [hs, he]

theorem Stop_out_empty (sw : Stopwatch) (e : Option String) (res now : Int)
    (he : Stopwatch.nonEmptyCstr e = false) :
    (sw.Stop e res now).2.2 = [] := by
  unfold Stopwatch.Stop
  split <;> simp [he]

theorem Start_out_empty (sw : Stopwatch) (e : Option String) (res n1 n2 : Int)
    (he : Stopwatch.nonEmptyCstr e = false) :
    (sw.Start e res n1 n2).2.2 = [] := by
  unfold Stopwatch.Start
  split
  · exact Stop_out_empty sw e res n1 he
  · simp [he]

theorem Show_activity (sw : Stopwatch) (e : Option String) (res now : Int) :
    (sw.Show e res now).2.1.m_activity = sw.m_activity := by
  unfold Stopwatch.Show
  split <;> rfl

theorem Stop_activity (sw : Stopwatch) (e : Option String) (res now : Int) :
    (sw.Stop e res now).2.1.m_activity = sw.m_activity := by
  unfold Stopwatch.Stop
  split <;> rfl

theorem Start_activity (sw : Stopwatch) (e : Option String) (res n1 n2 : Int) :
    (sw.Start e res n1 n2).2.1.m_activity = sw.m_activity := by
  unfold Stopwatch.Start
  split
  · dsimp only
    rw [Stop_activity]
  · rfl

theorem Show_out_suppressed (sw : Stopwatch) (e : Option String)
    (res now : Int) (h : sw.m_activity = none) :
    (sw.Show e res now).2.2 = [] := by
  unfold Stopwatch.Show
  split <;> simp [h]

theorem Stop_out_suppressed (sw : Stopwatch) (e : Option String)
    (res now : Int) (h : sw.m_activity = none) :
    (sw.Stop e res now).2.2 = [] := by
  unfold Stopwatch.Stop
  split <;> simp [h]

theorem Start_out_suppressed (sw : Stopwatch) (e : Option String)
    (res n1 n2 : Int) (h : sw.m_activity = none) :
    (sw.Start e res n1 n2).2.2 = [] := by
  unfold Stopwatch.Start
  split
  · dsimp only
    exact Stop_out_suppressed sw e res n1 h
  · simp [h]

theorem Show_lap_eq (a : Option String) (lap : Nat) (t : TimerBaseChrono)
    (e : Option String) (res now : Int) :
    ((⟨a, lap, t⟩ : Stopwatch).Show e res now).2.1.m_lap
      = if t.IsStarted then (t.GetMs res now).1 else lap := by
  by_cases h : t.IsStarted = true
  · simp [Stopwatch.Show, Stopwatch.IsStarted, h]
  · simp [Stopwatch.Show, Stopwatch.IsStarted, h]

theorem Show_timer_eq (a : Option String) (lap : Nat) (t : TimerBaseChrono)
    (e : Option String) (res now : Int) :
    ((⟨a, lap, t⟩ : Stopwatch).Show e res now).2.1.timer = t := by
  by_cases h : t.IsStarted = true
  · simp [Stopwatch.Show, Stopwatch.IsStarted, h, GetMs_snd]
  · simp [Stopwatch.Show, Stopwatch.IsStarted, h]

theorem Stop_lap_eq (a : Option String) (lap : Nat) (t : TimerBaseChrono)
    (e : Option String) (res now : Int) :
    ((⟨a, lap, t⟩ : Stopwatch).Stop e res now).2.1.m_lap
      = if t.IsStarted then (t.GetMs res now).1 else lap := by
  by_cases h : t.IsStarted = true
  · simp [Stopwatch.Stop, Stopwatch.IsStarted, h]
  · simp [Stopwatch.Stop, Stopwatch.IsStarted, h]

theorem Stop_timer_eq (a : Option String) (lap : Nat) (t : TimerBaseChrono)
    (e : Option String) (res now : Int) :
    ((⟨a, lap, t⟩ : Stopwatch).Stop e res now).2.1.timer = ⟨tpMin⟩ := by
  by_cases h : t.IsStarted = true
  · simp [Stopwatch.Stop, Stopwatch.IsStarted, h, TimerBaseChrono.Clear]
  · simp [Stopwatch.Stop, Stopwatch.IsStarted, h, TimerBaseChrono.Clear]

theorem Start_lap_eq (a : Option String) (lap : Nat) (t : TimerBaseChrono)
    (e : Option String) (res n1 n2 : Int) :
    ((⟨a, lap, t⟩ : Stopwatch).Start e res n1 n2).2.1.m_lap
      = if t.IsStarted then (t.GetMs res n1).1 else lap := by
  by_cases h : t.IsStarted = true
  · simp [Stopwatch.Start, Stopwatch.IsStarted, h, Stop_lap_eq]
  · simp [Stopwatch.Start, Stopwatch.IsStarted, h]

theorem Start_timer_eq (a : Option String) (lap : Nat) (t : TimerBaseChrono)
    (e : Option String) (res n1 n2 : Int) :
    ((⟨a, lap, t⟩ : Stopwatch).Start e res n1 n2).2.1.timer = ⟨n2⟩ := by
  by_cases h : t.IsStarted = true
  · simp [Stopwatch.Start, Stopwatch.IsStarted, h, TimerBaseChrono.Start]
  · simp [Stopwatch.Start, Stopwatch.IsStarted, h, TimerBaseChrono.Start]

theorem runOp_activity (res : Int) (sw : Stopwatch) (op : Op) :
    (runOp res sw op).1.m_activity = sw.m_activity :=
  match op with
  | .show e now => Show_activity sw e res now
  | .start e n1 n2 => Start_activity sw e res n1 n2
  | .stop e now => Stop_activity sw e res now

theorem runOp_out_suppressed (res : Int) (sw : Stopwatch) (op : Op)
    (h : sw.m_activity = none) : (runOp res sw op).2 = [] :=
  match op with
  | .show e now => Show_out_suppressed sw e res now h
  | .start e n1 n2 => Start_out_suppressed sw e res n1 n2 h
  | .stop e now => Stop_out_suppressed sw e res now h

theorem runOp_state_indep (res : Int) (op : Op) (sw sw' : Stopwatch)
    (h1 : sw.m_lap = sw'.m_lap) (h2 : sw.timer = sw'.timer) :
    (runOp res sw op).1.m_lap = (runOp res sw' op).1.m_lap ∧
    (runOp res sw op).1.timer = (runOp res sw' op).1.timer := by
  obtain ⟨a, lap, t⟩ := sw
  obtain ⟨a', lap', t'⟩ := sw'
  dsimp only at h1 h2
  subst h1
  subst h2
  cases op <;>
    simp [runOp, Show_lap_eq, Show_timer_eq, Stop_lap_eq, Stop_timer_eq,
      Start_lap_eq, Start_timer_eq]

theorem run_activity (res : Int) (sw : Stopwatch) (ops : List Op) :
    (run res sw ops).1.m_activity = sw.m_activity := by
  induction ops generalizing sw with
  | nil => rfl
  | cons op ops ih =>
      simp only [run]
      rw [ih, runOp_activity]

theorem run_out_suppressed (res : Int) (sw : Stopwatch) (ops : List Op)
    (h : sw.m_activity = none) : (run res sw ops).2 = [] := by
  induction ops generalizing sw with
  | nil => rfl
  | cons op ops ih =>
      simp only [run]
      rw [runOp_out_suppressed res sw op h, ih]
      · rfl
      · rw [runOp_activity]
        exact h

theorem run_state_indep (res : Int) (ops : List Op) (sw sw' : Stopwatch)
    (h1 : sw.m_lap = sw'.m_lap) (h2 : sw.timer = sw'.timer) :
    (run res sw ops).1.m_lap = (run res sw' ops).1.m_lap ∧
    (run res sw ops).1.timer = (run res sw' ops).1.timer := by
  induction ops generalizing sw sw' with
  | nil => exact ⟨h1, h2⟩
  | cons op ops ih =>
      simp only [run]
      obtain ⟨g1, g2⟩ := runOp_state_indep res op sw sw' h1 h2
      exact ih (runOp res sw op).1 (runOp res sw' op).1 g1 g2

theorem mkAct_suppressed (act : Option String) (b : Bool) (res now : Int)
    (hact : Stopwatch.normalize act = none) :
    Stopwatch.mkAct act b res now
      = (⟨none, 0, if b then ⟨now⟩ else TimerBaseChrono.init⟩, []) := by
  unfold Stopwatch.mkAct Stopwatch.Start
  cases b <;>
    simp [hact, Stopwatch.IsStarted, TimerBaseChrono.init,
      TimerBaseChrono.IsStarted, TimerBaseChrono.Start, Stopwatch.nonEmptyCstr]

theorem mkAct_labeled (a' : String) (b : Bool) (res now : Int)
    (ha' : a'.isEmpty = false) :
    Stopwatch.mkAct (some a') b res now
      = (⟨some a', 0, if b then ⟨now⟩ else TimerBaseChrono.init⟩,
         if b then [a' ++ ": " ++ "start"] else []) := by
  have hs : "start".isEmpty = false := by decide
  unfold Stopwatch.mkAct Stopwatch.Start Stopwatch.normalize
  cases b <;>
    simp [ha', hs, Stopwatch.IsStarted, TimerBaseChrono.init,
      TimerBaseChrono.IsStarted, TimerBaseChrono.Start, Stopwatch.nonEmptyCstr]

theorem destruct_suppressed (res now : Int) (sw : Stopwatch)
    (h : sw.m_activity = none) : Stopwatch.destruct res now sw = [] := by
  unfold Stopwatch.destruct
  split
  · rw [h]
    exact Stop_out_suppressed sw none res now h
  · rfl

theorem Show_stopped (sw : Stopwatch) (e : Option String) (res now : Int)
    (h : sw.IsStarted = false) :
    (sw.Show e res now).1 = sw.m_lap ∧
    (sw.Show e res now).2.1 = sw ∧
    (sw.Show e res now).2.2 =
      (match sw.m_activity with
       | some a => [a ++ ": not started"]
       | none => []) := by
  unfold Stopwatch.Show
  simp [h]

/-! ## Claim theorems -/

/-- C5: for every timer in the Stopped state, `Show` writes the line
`"<activity>: not started"` exactly when the activity label is not
suppressed, performs no measurement (the whole state, mark and `lastLap`
included, is unchanged), and returns the current `lastLap` value. -/
theorem claim_C5 (sw : Stopwatch) (e : Option String) (res now : Int)
    (h : sw.IsStarted = false) :
    (sw.Show e res now).1 = sw.m_lap ∧
    (sw.Show e res now).2.1 = sw ∧
    (sw.Show e res now).2.2 =
      (match sw.m_activity with
       | some a => [a ++ ": not started"]
       | none => []) :=
  Show_stopped sw e res now h

/-- C5 witness: a concrete Stopped, labeled timer. -/
theorem claim_C5_witness :
    (Stopwatch.Show (some "show") 1 9 ⟨some "A", 4, ⟨tpMin⟩⟩).1 = 4 ∧
    (Stopwatch.Show (some "show") 1 9 ⟨some "A", 4, ⟨tpMin⟩⟩).2.1
      = ⟨some "A", 4, ⟨tpMin⟩⟩ ∧
    (Stopwatch.Show (some "show") 1 9 ⟨some "A", 4, ⟨tpMin⟩⟩).2.2
      = ["A: not started"] :=
  claim_C5 ⟨some "A", 4, ⟨tpMin⟩⟩ (some "show") 1 9 (by decide)

/-- C6: for every timer in the Stopped state and every event name, `Stop`
emits no output, performs no measurement, leaves the whole state
(`lastLap` included) unchanged, and returns that unchanged `lastLap`. -/
theorem claim_C6 (sw : Stopwatch) (e : Option String) (res now : Int)
    (h : sw.IsStarted = false) :
    (sw.Stop e res now).2.2 = [] ∧
    (sw.Stop e res now).1 = sw.m_lap ∧
    (sw.Stop e res now).2.1 = sw := by
  have hclear : sw.timer.Clear = sw.timer :=
    Clear_of_not_started sw.timer h
  unfold Stopwatch.Stop
  simp [h, hclear]

/-- C6 witness: a concrete Stopped timer. -/
theorem claim_C6_witness :
    (Stopwatch.Stop (some "stop") 1 9 ⟨some "A", 4, ⟨tpMin⟩⟩).2.2 = [] ∧
    (Stopwatch.Stop (some "stop") 1 9 ⟨some "A", 4, ⟨tpMin⟩⟩).1 = 4 ∧
    (Stopwatch.Stop (some "stop") 1 9 ⟨some "A", 4, ⟨tpMin⟩⟩).2.1
      = ⟨some "A", 4, ⟨tpMin⟩⟩ :=
  claim_C6 ⟨some "A", 4, ⟨tpMin⟩⟩ (some "stop") 1 9 (by decide)

/-- C8: `GetMs` (the policies' `ElapsedTicks`) never alters the stored
mark; it returns zero when the mark is absent; and when the mark is
present it returns the duration from the mark to `now` truncated toward
zero at the policy's resolution (exactly, whenever that truncated count
is in the range of `unsigned long`). -/
theorem claim_C8 (t : TimerBaseChrono) (res now : Int) :
    (t.GetMs res now).2 = t ∧
    (t.IsStarted = false → (t.GetMs res now).1 = 0) ∧
    (t.IsStarted = true →
      0 ≤ Int.tdiv (now - t.m_start) res →
      Int.tdiv (now - t.m_start) res < 2 ^ ulongBits →
      (t.GetMs res now).1 = (Int.tdiv (now - t.m_start) res).toNat) := by
  refine ⟨GetMs_snd t res now, ?_, ?_⟩
  · intro h
    unfold TimerBaseChrono.GetMs
    simp [h]
  · intro h h0 hlt
    unfold TimerBaseChrono.GetMs
    simp only [h, if_true, ulongBits] at *
    omega

/-- C8 witness: a concrete marked timer; 5 base ticks at resolution 2
truncate to 2 ticks, and the mark is untouched. -/
theorem claim_C8_witness :
    (TimerBaseChrono.GetMs 2 5 ⟨0⟩).2 = ⟨0⟩ ∧
    (TimerBaseChrono.GetMs 2 5 ⟨0⟩).1 = (Int.tdiv (5 - 0) 2).toNat :=
  ⟨(claim_C8 ⟨0⟩ 2 5).1,
   (claim_C8 ⟨0⟩ 2 5).2.2 (by decide) (by decide) (by decide)⟩

/-- C9: `IsStarted()` is `true` immediately after a `Start` call made in
the Stopped state (for any clock reading other than the sentinel
`time_point::min()`, which a real clock never returns), is `false`
immediately after a `Stop` call made in the Running state (indeed after
any `Stop`), and is unchanged by `Show` in either state. -/
theorem claim_C9 (sw : Stopwatch) (e : Option String) (res n1 n2 now : Int) :
    (sw.IsStarted = false → n2 ≠ tpMin →
      (sw.Start e res n1 n2).2.1.IsStarted = true) ∧
    (sw.IsStarted = true → (sw.Stop e res now).2.1.IsStarted = false) ∧
    (sw.Show e res now).2.1.IsStarted = sw.IsStarted := by
  refine ⟨?_, ?_, ?_⟩
  · intro h hn
    have hm : sw.timer.m_start = tpMin := not_started_m_start sw.timer h
    unfold Stopwatch.Start
    simp [Stopwatch.IsStarted, TimerBaseChrono.Start,
      TimerBaseChrono.IsStarted, bne_iff_ne, hm, hn]
  · intro _
    exact Stop_not_started sw e res now
  · unfold Stopwatch.Show
    split
    · next h => simp [Stopwatch.IsStarted, GetMs_snd, h]
    · rfl

/-- C9 witness: a concrete Stopped timer started at clock reading 3, a
concrete Running timer stopped, and a `Show` on each. -/
theorem claim_C9_witness :
    (Stopwatch.Start (some "start") 1 3 3 ⟨some "A", 0, ⟨tpMin⟩⟩).2.1.IsStarted
      = true ∧
    (Stopwatch.Stop (some "stop") 1 3 ⟨some "A", 0, ⟨0⟩⟩).2.1.IsStarted
      = false ∧
    (Stopwatch.Show (some "show") 1 3 ⟨some "A", 0, ⟨0⟩⟩).2.1.IsStarted
      = (⟨some "A", 0, ⟨0⟩⟩ : Stopwatch).IsStarted :=
  ⟨(claim_C9 ⟨some "A", 0, ⟨tpMin⟩⟩ (some "start") 1 3 3 3).1 (by decide)
      (by decide),
   (claim_C9 ⟨some "A", 0, ⟨0⟩⟩ (some "stop") 1 3 3 3).2.1 (by decide),
   (claim_C9 ⟨some "A", 0, ⟨0⟩⟩ (some "show") 1 3 3 3).2.2⟩

/-- C7: destroying a Running timer performs an implicit `Stop` with the
default event `"stop"`: exactly one stop-style line is written when the
label is not suppressed and none when it is; destroying a Stopped timer
writes nothing. -/
theorem claim_C7 (sw : Stopwatch) (res now : Int) :
    (∀ a, sw.IsStarted = true → sw.m_activity = some a →
      Stopwatch.destruct res now sw
        = [a ++ ": " ++ "stop" ++ " " ++ toString (sw.timer.GetMs res now).1
            ++ "mS"]) ∧
    (sw.IsStarted = true → sw.m_activity = none →
      Stopwatch.destruct res now sw = []) ∧
    (sw.IsStarted = false → Stopwatch.destruct res now sw = []) := by
  refine ⟨?_, ?_, ?_⟩
  · intro a hs ha
    unfold Stopwatch.destruct Stopwatch.Stop
    simp [hs, ha, Stopwatch.nonEmptyCstr]
    decide
  · intro hs ha
    unfold Stopwatch.destruct Stopwatch.Stop
    simp [hs, ha]
  · intro hs
    unfold Stopwatch.destruct
    simp [hs]

/-- C7 witness: a concrete Running labeled timer, stopped at destruction
after 5 ticks, and a concrete Stopped timer destroyed silently. -/
theorem claim_C7_witness :
    Stopwatch.destruct 1 5 ⟨some "A", 3, ⟨0⟩⟩
      = ["A" ++ ": " ++ "stop" ++ " "
          ++ toString (TimerBaseChrono.GetMs 1 5 ⟨0⟩).1 ++ "mS"] ∧
    Stopwatch.destruct 1 5 ⟨some "A", 3, ⟨tpMin⟩⟩ = [] :=
  ⟨(claim_C7 ⟨some "A", 3, ⟨0⟩⟩ 1 5).1 "A" (by decide) rfl,
   (claim_C7 ⟨some "A", 3, ⟨tpMin⟩⟩ 1 5).2.2 (by decide)⟩

/-- C10: when the clock's current reading is earlier than the stored mark,
the signed truncated duration count is negative, and the C cast to
`unsigned long` in `GetMs` wraps it modulo `2 ^ 64` to the huge positive
value `2 ^ 64 + count` (neither negative nor clamped to zero); a `Show`
or `Stop` on a running timer then stores that wrapped value into `m_lap`,
and `Show` prints it. -/
theorem claim_C10 (t : TimerBaseChrono) (res now : Int)
    (h : t.IsStarted = true)
    (hneg : Int.tdiv (now - t.m_start) res < 0)
    (hlb : -(2 ^ ulongBits : Int) < Int.tdiv (now - t.m_start) res) :
    (t.GetMs res now).1
      = ((2 ^ ulongBits : Int) + Int.tdiv (now - t.m_start) res).toNat ∧
    0 < (t.GetMs res now).1 ∧
    (∀ a ev lap0, Stopwatch.nonEmptyCstr (some ev) = true →
      (Stopwatch.Show (some ev) res now ⟨some a, lap0, t⟩).2.1.m_lap
          = (t.GetMs res now).1 ∧
      (Stopwatch.Stop (some ev) res now ⟨some a, lap0, t⟩).2.1.m_lap
          = (t.GetMs res now).1 ∧
      (Stopwatch.Show (some ev) res now ⟨some a, lap0, t⟩).2.2
          = [a ++ ": " ++ ev ++ " at " ++ toString (t.GetMs res now).1
              ++ "mS"]) := by
  have hval : (t.GetMs res now).1
      = ((2 ^ ulongBits : Int) + Int.tdiv (now - t.m_start) res).toNat := by
    unfold TimerBaseChrono.GetMs
    simp only [h, if_true, ulongBits] at *
    omega
  refine ⟨hval, ?_, ?_⟩
  · rw [hval]
    simp only [ulongBits] at *
    omega
  · intro a ev lap0 hev
    have hs : (⟨some a, lap0, t⟩ : Stopwatch).IsStarted = true := h
    refine ⟨?_, ?_, ?_⟩
    · unfold Stopwatch.Show
      simp [hs]
    · unfold Stopwatch.Stop
      simp [hs]
    · unfold Stopwatch.Show
      simp [hs, hev]

/-- C10 witness: mark at 10, clock read back at 3, resolution 1: the
count is −7 and `GetMs` returns `2 ^ 64 − 7`. -/
theorem claim_C10_witness :
    (TimerBaseChrono.GetMs 1 3 ⟨10⟩).1
      = ((2 ^ ulongBits : Int) + Int.tdiv (3 - 10) 1).toNat ∧
    0 < (TimerBaseChrono.GetMs 1 3 ⟨10⟩).1 :=
  ⟨(claim_C10 ⟨10⟩ 1 3 (by decide) (by decide) (by decide)).1,
   (claim_C10 ⟨10⟩ 1 3 (by decide) (by decide) (by decide)).2.1⟩

/-- C1 counterexample: `Show` called with an absent event name on a
Stopped timer whose label is `"A"` does write a line (`"A: not started"`),
so "no output line is written ... in either the Running or the Stopped
state" fails in the Stopped state for `Show`. -/
theorem claim_C1_counterexample :
    (Stopwatch.Show none msecRes 5 ⟨some "A", 0, TimerBaseChrono.init⟩).2.2
      = ["A: not started"] ∧
    (Stopwatch.Show none msecRes 5 ⟨some "A", 0, TimerBaseChrono.init⟩).2.2
      ≠ [] := by
  constructor
  · rfl
  · decide

/-- C1 (amended): with an empty or absent event name, `Start` and `Stop`
write no line in either state, and `Show` writes no line while Running;
`Show` while Stopped still writes the `"not started"` line exactly when
the label is not suppressed. In every case the call's return value and
its measurement and state-transition effects are identical to those of
the same call with any other event name. -/
theorem claim_C1_amended (sw : Stopwatch) (e : Option String)
    (res n1 n2 now : Int) (he : Stopwatch.nonEmptyCstr e = false) :
    (sw.Start e res n1 n2).2.2 = [] ∧
    (sw.Stop e res now).2.2 = [] ∧
    (sw.IsStarted = true → (sw.Show e res now).2.2 = []) ∧
    (sw.IsStarted = false →
      (sw.Show e res now).2.2 =
        (match sw.m_activity with
         | some a => [a ++ ": not started"]
         | none => [])) ∧
    (∀ e', (sw.Show e res now).1 = (sw.Show e' res now).1 ∧
      (sw.Show e res now).2.1 = (sw.Show e' res now).2.1) ∧
    (∀ e', (sw.Start e res n1 n2).1 = (sw.Start e' res n1 n2).1 ∧
      (sw.Start e res n1 n2).2.1 = (sw.Start e' res n1 n2).2.1) ∧
    (∀ e', (sw.Stop e res now).1 = (sw.Stop e' res now).1 ∧
      (sw.Stop e res now).2.1 = (sw.Stop e' res now).2.1) := by
  refine ⟨Start_out_empty sw e res n1 n2 he, Stop_out_empty sw e res now he,
    ?_, ?_, ?_, ?_, ?_⟩
  · intro hs
    exact Show_out_empty sw e res now hs he
  · intro hs
    exact (Show_stopped sw e res now hs).2.2
  · intro e'
    exact ⟨Show_val_eq sw e e' res now, Show_state_eq sw e e' res now⟩
  · intro e'
    exact ⟨Start_val_eq sw e e' res n1 n2, Start_state_eq sw e e' res n1 n2⟩
  · intro e'
    exact ⟨Stop_val_eq sw e e' res now, Stop_state_eq sw e e' res now⟩

/-- C1 witness: a concrete Running timer, event name absent: `Start`,
`Stop` and `Show` all stay silent, and `Stop` still records the lap. -/
theorem claim_C1_witness :
    (Stopwatch.Start none 1 5 7 ⟨some "A", 0, ⟨0⟩⟩).2.2 = [] ∧
    (Stopwatch.Stop none 1 5 ⟨some "A", 0, ⟨0⟩⟩).2.2 = [] ∧
    (Stopwatch.Show none 1 5 ⟨some "A", 0, ⟨0⟩⟩).2.2 = [] ∧
    (Stopwatch.Stop none 1 5 ⟨some "A", 0, ⟨0⟩⟩).2.1
      = (Stopwatch.Stop (some "stop") 1 5 ⟨some "A", 0, ⟨0⟩⟩).2.1 :=
  ⟨(claim_C1_amended ⟨some "A", 0, ⟨0⟩⟩ none 1 5 7 5 (by decide)).1,
   (claim_C1_amended ⟨some "A", 0, ⟨0⟩⟩ none 1 5 7 5 (by decide)).2.1,
   (claim_C1_amended ⟨some "A", 0, ⟨0⟩⟩ none 1 5 7 5 (by decide)).2.2.1
     (by decide),
   ((claim_C1_amended ⟨some "A", 0, ⟨0⟩⟩ none 1 5 7 5 (by decide)).2.2.2.2.2.2
     (some "stop")).2⟩

/-- C2 counterexample: on a Running timer labeled `"A"`, `Start("e")`
writes one line, while the sequence `Stop("e"); Start()` (with `Start`'s
default event `"start"`) writes two: the claimed equivalence of output
lines fails. -/
theorem claim_C2_counterexample :
    (Stopwatch.Start (some "e") 1 5 7 ⟨some "A", 0, ⟨0⟩⟩).2.2
      = ["A: e 5mS"] ∧
    (Stopwatch.Stop (some "e") 1 5 ⟨some "A", 0, ⟨0⟩⟩).2.2
        ++ (Stopwatch.Start (some "start") 1 7 7
              (Stopwatch.Stop (some "e") 1 5 ⟨some "A", 0, ⟨0⟩⟩).2.1).2.2
      = ["A: e 5mS", "A: start"] ∧
    (Stopwatch.Start (some "e") 1 5 7 ⟨some "A", 0, ⟨0⟩⟩).2.2
      ≠ (Stopwatch.Stop (some "e") 1 5 ⟨some "A", 0, ⟨0⟩⟩).2.2
          ++ (Stopwatch.Start (some "start") 1 7 7
                (Stopwatch.Stop (some "e") 1 5 ⟨some "A", 0, ⟨0⟩⟩).2.1).2.2 := by
  refine ⟨rfl, rfl, ?_⟩
  decide

/-- C2 (amended): on a Running timer, `Start(e)` equals the sequence
`Stop(e)` followed by a restart with an empty/absent event name: same
return value (the stop's duration), same output lines, same final state
(Running with a fresh mark). With `Start`'s default event `"start"`
instead, the sequence writes one extra `"<activity>: start"` line when
the label is not suppressed. -/
theorem claim_C2_amended (sw : Stopwatch) (e : Option String)
    (res n1 n2 : Int) (h : sw.IsStarted = true) :
    sw.Start e res n1 n2 =
      ((((sw.Stop e res n1).2.1.Start none res n2 n2).1,
        ((sw.Stop e res n1).2.1.Start none res n2 n2).2.1,
        (sw.Stop e res n1).2.2
          ++ ((sw.Stop e res n1).2.1.Start none res n2 n2).2.2)) := by
  have hstopped := Stop_not_started sw e res n1
  conv_lhs => unfold Stopwatch.Start
  conv_rhs => unfold Stopwatch.Start
  simp [h, hstopped]

/-- C2 witness: the amended equivalence at a concrete Running timer. -/
theorem claim_C2_witness :
    Stopwatch.Start (some "e") 1 5 7 ⟨some "A", 0, ⟨0⟩⟩ =
      (((Stopwatch.Stop (some "e") 1 5 ⟨some "A", 0, ⟨0⟩⟩).2.1.Start
          none 1 7 7).1,
       ((Stopwatch.Stop (some "e") 1 5 ⟨some "A", 0, ⟨0⟩⟩).2.1.Start
          none 1 7 7).2.1,
       (Stopwatch.Stop (some "e") 1 5 ⟨some "A", 0, ⟨0⟩⟩).2.2
         ++ ((Stopwatch.Stop (some "e") 1 5 ⟨some "A", 0, ⟨0⟩⟩).2.1.Start
              none 1 7 7).2.2) :=
  claim_C2_amended ⟨some "A", 0, ⟨0⟩⟩ (some "e") 1 5 7 (by decide)

/-- C4 counterexample: the microsecond instantiation prints its
microsecond count with the same `"mS"` literal the millisecond
instantiation uses (2000000 base ticks print as `"2000mS"` and `"2mS"`
respectively), so the two policies do not each have their own unit
literal. -/
theorem claim_C4_counterexample :
    (Stopwatch.Stop (some "done") microRes 2000000 ⟨some "A", 0, ⟨0⟩⟩).2.2
      = ["A: done 2000mS"] ∧
    (Stopwatch.Stop (some "done") msecRes 2000000 ⟨some "A", 0, ⟨0⟩⟩).2.2
      = ["A: done 2mS"] :=
  ⟨rfl, rfl⟩

/-- C4 (amended): every duration-reporting line (Show or Stop while
Running, label and event non-suppressed) ends in the one fixed literal
`"mS"` shared by every clock policy, and the printed count is a
non-negative integer (`Nat`) rendered with no fractional digits. -/
theorem claim_C4_amended (sw : Stopwatch) (a ev : String) (res now : Int)
    (h1 : sw.IsStarted = true) (h2 : sw.m_activity = some a)
    (hev : ev.isEmpty = false) :
    (∃ n : Nat, (sw.Stop (some ev) res now).2.2
      = [a ++ ": " ++ ev ++ " " ++ toString n ++ "mS"]) ∧
    (∃ n : Nat, (sw.Show (some ev) res now).2.2
      = [a ++ ": " ++ ev ++ " at " ++ toString n ++ "mS"]) := by
  constructor
  · refine ⟨(sw.timer.GetMs res now).1, ?_⟩
    unfold Stopwatch.Stop
    simp [h1, h2, Stopwatch.nonEmptyCstr, hev]
  · refine ⟨(sw.timer.GetMs res now).1, ?_⟩
    unfold Stopwatch.Show
    simp [h1, h2, Stopwatch.nonEmptyCstr, hev]

/-- C4 witness: the amended statement at a concrete Running labeled
timer, at the millisecond policy's resolution. -/
theorem claim_C4_witness :
    (∃ n : Nat,
      (Stopwatch.Stop (some "done") msecRes 2000000
          ⟨some "A", 0, ⟨0⟩⟩).2.2
        = ["A" ++ ": " ++ "done" ++ " " ++ toString n ++ "mS"]) ∧
    (∃ n : Nat,
      (Stopwatch.Show (some "done") msecRes 2000000
          ⟨some "A", 0, ⟨0⟩⟩).2.2
        = ["A" ++ ": " ++ "done" ++ " at " ++ toString n ++ "mS"]) :=
  claim_C4_amended ⟨some "A", 0, ⟨0⟩⟩ "A" "done" msecRes 2000000
    (by decide) rfl (by decide)

/-- C3: a timer constructed with an empty or absent activity label writes
no line at construction, none during any subsequent sequence of `Show`,
`Start` and `Stop` calls (whatever their event arguments), and none at
destruction; yet after any such sequence its `lastLap`, its timer mark
and its Running/Stopped state are exactly those of a timer constructed
with a (non-empty) label and driven by the same calls. -/
theorem claim_C3 (act : Option String) (b : Bool) (res now nowD : Int)
    (ops : List Op) (a' : String)
    (hact : Stopwatch.normalize act = none) (ha' : a'.isEmpty = false) :
    (Stopwatch.mkAct act b res now).2 = [] ∧
    (run res (Stopwatch.mkAct act b res now).1 ops).2 = [] ∧
    Stopwatch.destruct res nowD
      (run res (Stopwatch.mkAct act b res now).1 ops).1 = [] ∧
    (run res (Stopwatch.mkAct act b res now).1 ops).1.m_lap
      = (run res (Stopwatch.mkAct (some a') b res now).1 ops).1.m_lap ∧
    (run res (Stopwatch.mkAct act b res now).1 ops).1.timer
      = (run res (Stopwatch.mkAct (some a') b res now).1 ops).1.timer ∧
    (run res (Stopwatch.mkAct act b res now).1 ops).1.IsStarted
      = (run res (Stopwatch.mkAct (some a') b res now).1 ops).1.IsStarted := by
  have hmk1 := mkAct_suppressed act b res now hact
  have hmk2 := mkAct_labeled a' b res now ha'
  have hnone : (Stopwatch.mkAct act b res now).1.m_activity = none := by
    rw [hmk1]
  have hst := run_state_indep res ops (Stopwatch.mkAct act b res now).1
    (Stopwatch.mkAct (some a') b res now).1 (by rw [hmk1, hmk2])
    (by rw [hmk1, hmk2])
  refine ⟨by rw [hmk1], run_out_suppressed res _ ops hnone, ?_, hst.1, hst.2,
    ?_⟩
  · apply destruct_suppressed
    rw [run_activity]
    exact hnone
  · unfold Stopwatch.IsStarted
    rw [hst.2]

/-- C3 witness: a timer built with the empty label, auto-started, then
shown and stopped: silent throughout, with the same lap and mark as the
identically driven timer labeled `"L"`. -/
theorem claim_C3_witness :
    (Stopwatch.mkAct (some "") true 1 5).2 = [] ∧
    (run 1 (Stopwatch.mkAct (some "") true 1 5).1
        [Op.show (some "x") 6, Op.stop (some "y") 7]).2 = [] ∧
    Stopwatch.destruct 1 9
      (run 1 (Stopwatch.mkAct (some "") true 1 5).1
        [Op.show (some "x") 6, Op.stop (some "y") 7]).1 = [] ∧
    (run 1 (Stopwatch.mkAct (some "") true 1 5).1
        [Op.show (some "x") 6, Op.stop (some "y") 7]).1.m_lap
      = (run 1 (Stopwatch.mkAct (some "L") true 1 5).1
          [Op.show (some "x") 6, Op.stop (some "y") 7]).1.m_lap ∧
    (run 1 (Stopwatch.mkAct (some "") true 1 5).1
        [Op.show (some "x") 6, Op.stop (some "y") 7]).1.timer
      = (run 1 (Stopwatch.mkAct (some "L") true 1 5).1
          [Op.show (some "x") 6, Op.stop (some "y") 7]).1.timer ∧
    (run 1 (Stopwatch.mkAct (some "") true 1 5).1
        [Op.show (some "x") 6, Op.stop (some "y") 7]).1.IsStarted
      = (run 1 (Stopwatch.mkAct (some "L") true 1 5).1
          [Op.show (some "x") 6, Op.stop (some "y") 7]).1.IsStarted :=
  claim_C3 (some "") true 1 5 9 [Op.show (some "x") 6, Op.stop (some "y") 7]
    "L" (by decide) (by decide)

end StopwatchRepo
